import Mathlib

/-!
Shallow embedding of `openai_researcher.py` (the open-researcher repository).

The program's two tool functions, `crawl_urls` and `extract_urls_from_search`,
and the two-stage pipeline (`run_research_process` plus the Start-Research
button handler) are embedded as executable Lean definitions.  External
collaborators are modelled as explicit inputs:

* `json.loads` (Python standard library) is modelled by its outcome: a
  `Payload` carries the raw string together with `some j` when the parse
  succeeds with structured value `j`, or `none` when it raises
  `JSONDecodeError`.
* the Crawl4AI fetch engine is modelled by a `CrawlEnv`: an optional
  session-initialization error plus a per-call fetch oracle.
* the two reasoning agents are modelled by a `ResearchEnv` of two oracles,
  each either returning text or raising.

Machine-level caveats of the model: JSON numbers are restricted to integers
(no floats occur in any claim), and a parsed JSON object models the Python
dict produced by `json.loads`, so its key list is duplicate-free.
Streamlit display calls (`st.write`, `st.error`, ...) never raise and are
modelled as no-ops, except in the pipeline embedding where the observable
display events are recorded explicitly.
-/

/-! ## Python primitives -/

/-- Python list slicing `l[:m]` for an `int` bound `m`: a nonnegative bound
takes the first `m` elements, a negative bound drops the last `|m|`
elements (`max(len(l) + m, 0)` elements are kept). -/
def pySlice {α : Type} (l : List α) (m : Int) : List α :=
  if 0 ≤ m then l.take m.toNat else l.take (l.length - (-m).toNat)

/-- Python `str.split()` whitespace characters. -/
def pyIsSpace (c : Char) : Bool :=
  c = ' ' || c = '\t' || c = '\n' || c = '\r' || c = '\x0b' || c = '\x0c'

/-- Split a character list at every separator char satisfying `p`, keeping
empty pieces (the behaviour of Python `str.split(sep)` with an explicit
separator). -/
def splitOnPred (p : Char → Bool) : List Char → List (List Char)
  | [] => [[]]
  | x :: xs =>
    let r := splitOnPred p xs
    if p x then [] :: r
    else
      match r with
      | [] => [[x]]
      | h :: t => (x :: h) :: t

/-- Python `line.split()`: split on whitespace runs, dropping empty tokens. -/
def pyWords (l : List Char) : List (List Char) :=
  (splitOnPred pyIsSpace l).filter (fun w => !w.isEmpty)

/-- Python `needle in hay` substring test on character lists. -/
def hasSub (needle : List Char) : List Char → Bool
  | [] => needle.isEmpty
  | c :: rest => needle.isPrefixOf (c :: rest) || hasSub needle rest

/-- The character set of `word.strip('.,;:()[]{}')` in the fallback scanner
(periods, commas, semicolons, colons and bracket characters). -/
def stripSet : List Char :=
  ['.', ',', ';', ':', '(', ')', '[', ']', '\x7b', '\x7d']

/-- Python `word.strip('.,;:()[]...')`: remove the listed characters from
both ends of the word. -/
def pyStrip (w : List Char) : List Char :=
  ((w.dropWhile (fun c => stripSet.contains c)).reverse.dropWhile
      (fun c => stripSet.contains c)).reverse

/-- Python `s.replace(a, b)` for single-character `a` and `b` (the download
filename computation replaces every space by an underscore). -/
def pyReplaceChar (a b : Char) (s : String) : String :=
  (s.toList.map (fun c => if c = a then b else c)).asString

/-- Python `a or b` on two optional strings, where `None` and `""` are
falsy: the first operand is returned when truthy, otherwise the second is
returned unchanged. -/
def pyOrStr (a b : Option String) : Option String :=
  match a with
  | some s => if s = "" then b else some s
  | none => b

/-! ## JSON values and search payloads -/

/-- Structured values produced by `json.loads`.  Numbers are restricted to
integers; `obj` models the resulting Python dict, so its field list is
keyed uniquely in insertion order. -/
inductive JSON where
  | null
  | bool (b : Bool)
  | num (n : Int)
  | str (s : String)
  | arr (items : List JSON)
  | obj (fields : List (String × JSON))

/-- Python truthiness of a JSON value (`if url:`). -/
def JSON.truthy : JSON → Bool
  | .null => false
  | .bool b => b
  | .num n => n ≠ 0
  | .str s => s ≠ ""
  | .arr l => !l.isEmpty
  | .obj f => !f.isEmpty

/-- Whether the corresponding Python value is hashable (may enter a `set`).
Lists and dicts are unhashable; `seen.add(url)` raises `TypeError` on them. -/
def JSON.hashable : JSON → Bool
  | .arr _ => false
  | .obj _ => false
  | _ => true

/-- Equality test used for `set` membership.  It is only ever applied with a
hashable left operand, where it coincides with equality of values. -/
def JSON.atomEq : JSON → JSON → Bool
  | .null, .null => true
  | .bool a, .bool b => a = b
  | .num a, .num b => a = b
  | .str a, .str b => a = b
  | _, _ => false

/-- Python `fields.get(k)` on the dict modelled by `fields`, with absent
keys read as `None` (both an absent key and a stored `null` give `null`). -/
def pyGetJ (fields : List (String × JSON)) (k : String) : JSON :=
  (fields.lookup k).getD .null

/-- Python `a or b` on JSON values. -/
def pyOrJ (a b : JSON) : JSON :=
  if a.truthy then a else b

/-- Per-entry URL extraction of `extract_urls_from_search` (lines 144-148 and
153-157 of the source): for a dict entry, read
`result.get('url') or result.get('link') or result.get('href')` and keep it
when truthy; non-dict entries yield nothing. -/
def entryUrl : JSON → Option JSON
  | .obj fields =>
    let u := pyOrJ (pyGetJ fields "url")
      (pyOrJ (pyGetJ fields "link") (pyGetJ fields "href"))
    if u.truthy then some u else none
  | _ => none

/-- The argument of `extract_urls_from_search`: the raw string handed to the
tool together with the outcome of `json.loads` on it (`none` when the parse
raises `JSONDecodeError`). -/
structure Payload where
  raw : String
  parsed : Option JSON

/-! ## extract_urls_from_search -/

/-- The structured parse path (source lines 141-157).  `none` models the
`TypeError` raised when a dict's `results` value is neither a list nor a
string and is therefore unsliceable; that error is caught by the inner
`except (json.JSONDecodeError, TypeError)` and diverts to the text
fallback.  A string `results` value slices to characters, none of which is
a dict, so it yields no URLs; a parsed value that is neither a list nor a
dict matches no branch and yields no URLs. -/
def collectStructured (j : JSON) (m : Int) : Option (List JSON) :=
  match j with
  | .arr l => some ((pySlice l m).filterMap entryUrl)
  | .obj fields =>
    match fields.lookup "results" with
    | none => some ((pySlice [JSON.obj fields] m).filterMap entryUrl)
    | some (.arr l) => some ((pySlice l m).filterMap entryUrl)
    | some (.str _) => some []
    | some _ => none
  | _ => some []

/-- Inner word loop of the fallback scanner (source lines 166-171): collect
tokens starting with `http://` or `https://`, stripping the punctuation
set from both ends, and stop as soon as `len(urls) >= max_urls` right
after an append. -/
def scanWords (m : Int) : List JSON → List (List Char) → List JSON
  | acc, [] => acc
  | acc, w :: ws =>
    if "http://".toList.isPrefixOf w || "https://".toList.isPrefixOf w then
      let acc2 := acc ++ [JSON.str (pyStrip w).asString]
      if m ≤ (acc2.length : Int) then acc2 else scanWords m acc2 ws
    else scanWords m acc ws

/-- Outer line loop of the fallback scanner (source lines 162-173): only
lines containing the substring `http` are tokenized, and after each line
the loop stops once `len(urls) >= max_urls`. -/
def scanLines (m : Int) : List JSON → List (List Char) → List JSON
  | acc, [] => acc
  | acc, line :: rest =>
    let acc2 := if hasSub "http".toList line then scanWords m acc (pyWords line) else acc
    if m ≤ (acc2.length : Int) then acc2 else scanLines m acc2 rest

/-- The whole text fallback (source lines 159-173):
`str(search_results).split('\n')` then the line scan. -/
def fallbackScan (raw : String) (m : Int) : List JSON :=
  scanLines m [] (splitOnPred (fun c => c = '\n') raw.toList)

/-- The candidate URL list `urls` as it stands at source line 175: the
structured path when `json.loads` succeeded and no `TypeError` diverted to
the fallback, the text fallback otherwise.  Whenever the fallback is
entered, no candidate has been collected yet, so it starts from the empty
accumulator exactly as in the source. -/
def collectUrls (p : Payload) (m : Int) : List JSON :=
  match p.parsed with
  | some j =>
    match collectStructured j m with
    | some urls => urls
    | none => fallbackScan p.raw m
  | none => fallbackScan p.raw m

/-- The dedup loop of source lines 176-181, with the Python `set` `seen`
carried as the list of values added so far.  Membership testing hashes the
candidate first, so an unhashable candidate (a list or dict collected as a
URL value) raises `TypeError`, modelled as `.error`; that exception is only
caught by the function's outermost handler. -/
def dedupLoop (seen : List JSON) : List JSON → Except String (List JSON)
  | [] => .ok []
  | u :: rest =>
    if u.hashable then
      if seen.any u.atomEq then dedupLoop seen rest
      else (dedupLoop (u :: seen) rest).map (fun tl => u :: tl)
    else .error "unhashable type"

/-- Body of `extract_urls_from_search` inside the outermost `try` (source
lines 129-183): collect candidates, deduplicate preserving first-seen
order, and return `unique_urls[:max_urls]`.  `.error` is an exception
reaching the outermost handler. -/
def extractBody (p : Payload) (m : Int) : Except String (List JSON) :=
  (dedupLoop [] (collectUrls p m)).map (fun uniq => pySlice uniq m)

/-- The tool `extract_urls_from_search` (source lines 121-187): the
outermost `except Exception` handler turns any uncaught exception into an
empty result. -/
def extract_urls_from_search (p : Payload) (m : Int) : List JSON :=
  match extractBody p m with
  | .ok l => l
  | .error _ => []

/-! ## crawl_urls -/

/-- The fields of a Crawl4AI `arun` result that the source reads:
`success`, `cleaned_html`, `markdown` (each possibly `None`), and the
`title` entry of the metadata dict (`none` when the key is absent). -/
structure FetchResult where
  success : Bool
  cleaned_html : Option String
  markdown : Option String
  title : Option String
  deriving DecidableEq

/-- Outcome of one `await crawler.arun(...)` call: a returned result or a
raised exception carrying its message. -/
inductive FetchOutcome where
  | ok (r : FetchResult)
  | exn (msg : String)
  deriving DecidableEq

/-- The external crawl engine for one batch: `initErr` is `some msg` when
entering `async with AsyncWebCrawler(...)` raises (the only batch-level
failure), and `fetch i url` is the outcome of the fetch for the `i`-th
URL of the batch. -/
structure CrawlEnv where
  initErr : Option String
  fetch : Nat → String → FetchOutcome

/-- One element of `crawled_content`.  A field holding `none` models an
absent dict key; success records always carry the `content` key, whose
value may itself be Python `None` (hence the nested option). -/
structure CrawlRecord where
  url : String
  title : Option String
  content : Option (Option String)
  word_count : Option Nat
  success : Bool
  error : Option String
  deriving DecidableEq

/-- The record appended for one URL (source lines 64-100): on a returned
success, content is `cleaned_html or markdown`, the title defaults to
`""`, and the word count splits `content or ""` on whitespace; on a
returned failure the fixed message `"Failed to crawl"` is recorded; on a
raised exception its message is recorded.  Either failure leaves the
batch loop running. -/
def crawlStep (fetch : Nat → String → FetchOutcome) (i : Nat) (url : String) :
    CrawlRecord :=
  match fetch i url with
  | .ok r =>
    if r.success then
      let content := pyOrStr r.cleaned_html r.markdown
      { url := url
        title := some (r.title.getD "")
        content := some content
        word_count := some (pyWords (content.getD "").toList).length
        success := true
        error := none }
    else
      { url := url, title := none, content := none, word_count := none
        success := false, error := some "Failed to crawl" }
  | .exn msg =>
    { url := url, title := none, content := none, word_count := none
      success := false, error := some msg }

/-- Top-level shape of the dict returned by `crawl_urls`: the batch result
(`"success": True`, source lines 104-113) or the batch-level error dict
(`"success": False`, no records, source line 117). -/
structure CrawlBatchResult where
  total_urls_attempted : Nat
  successful_crawls : Nat
  crawled_content : List CrawlRecord
  summary : String
  deriving DecidableEq

inductive CrawlResponse where
  | batch (b : CrawlBatchResult)
  | batchError (error : String)
  deriving DecidableEq

/-- The successful-path body of `crawl_urls` (source lines 56-113):
truncate to `urls[:max_urls]`, crawl sequentially appending one record per
URL, then assemble counters and the summary string. -/
def crawlBatch (fetch : Nat → String → FetchOutcome) (urls : List String)
    (max_urls : Int) : CrawlBatchResult :=
  let urls_to_crawl := pySlice urls max_urls
  let crawled_content :=
    urls_to_crawl.enum.map (fun iu => crawlStep fetch iu.1 iu.2)
  let successful_crawls := crawled_content.filter (fun r => r.success)
  { total_urls_attempted := urls_to_crawl.length
    successful_crawls := successful_crawls.length
    crawled_content := crawled_content
    summary := "Successfully crawled " ++ toString successful_crawls.length
      ++ " out of " ++ toString urls_to_crawl.length ++ " URLs" }

/-- The tool `crawl_urls` (source lines 48-117): a failed crawler-session
initialization is the only exception reaching the outer handler, which
returns the batch-level error dict; otherwise the batch body runs to
completion. -/
def crawl_urls (env : CrawlEnv) (urls : List String) (max_urls : Int) :
    CrawlResponse :=
  match env.initErr with
  | some msg => .batchError msg
  | none => .batch (crawlBatch env.fetch urls max_urls)

/-! ## The two-stage pipeline -/

/-- Outcome of one agent run (`Runner.run`): its final output text, or a
raised exception carrying its message. -/
inductive StageResult where
  | ok (text : String)
  | exn (msg : String)
  deriving DecidableEq

/-- The two reasoning agents as oracles: the research agent maps the topic
to an initial report, the elaboration agent maps the elaboration prompt to
an enhanced report. -/
structure ResearchEnv where
  runResearch : String → StageResult
  runElaboration : String → StageResult

/-- The elaboration prompt built in `run_research_process`
(source lines 285-293). -/
def elaborationInput (topic initial_report : String) : String :=
  "\n        RESEARCH TOPIC: " ++ topic
    ++ "\n        \n        INITIAL RESEARCH REPORT:\n        " ++ initial_report
    ++ "\n        \n        Please enhance this research report with additional information, examples, case studies, \n        and deeper insights while maintaining its academic rigor and factual accuracy.\n        "

/-- Observable display events of the Streamlit surface. -/
inductive UIEvent where
  | showIntermediate (report : String)
  | showEnhanced (report : String)
  | offerDownload (filename : String) (content : String)
  | showError (msg : String)
  deriving DecidableEq

/-- `run_research_process` (source lines 272-298): run the research agent,
display the initial report in an expander, then run the elaboration agent
on the elaboration prompt; either raised exception propagates to the
caller.  The result pairs the display events emitted so far with the
outcome. -/
def run_research_process (env : ResearchEnv) (topic : String) :
    List UIEvent × StageResult :=
  match env.runResearch topic with
  | .exn e => ([], .exn e)
  | .ok initial_report =>
    match env.runElaboration (elaborationInput topic initial_report) with
    | .exn e => ([.showIntermediate initial_report], .exn e)
    | .ok enhanced_report =>
      ([.showIntermediate initial_report], .ok enhanced_report)

/-- The Start-Research button handler (source lines 308-329): on success it
displays the enhanced report and offers the download; any exception from
either stage is caught by its `except` clause and surfaced as an error
message, with no final artifact. -/
def startResearchHandler (env : ResearchEnv) (topic : String) : List UIEvent :=
  match run_research_process env topic with
  | (events, .exn e) => events ++ [.showError ("An error occurred: " ++ e)]
  | (events, .ok enhanced_report) =>
    events ++ [.showEnhanced enhanced_report,
      .offerDownload (pyReplaceChar ' ' '_' topic ++ "_report.md") enhanced_report]

/-! ## Concrete inputs used to instantiate the theorems -/

/-- A fetch oracle where the second URL of the batch raises and every other
fetch succeeds with two words of cleaned HTML. -/
def fetchDemo : Nat → String → FetchOutcome := fun i _ =>
  if i = 1 then .exn "boom"
  else .ok { success := true, cleaned_html := some "hello world",
             markdown := none, title := some "Title" }

/-- A crawl environment whose session initializes fine and fetches with
`fetchDemo`. -/
def demoEnv : CrawlEnv := { initErr := none, fetch := fetchDemo }

def demoUrls : List String := ["http://a", "http://b", "http://c"]

/-- The batch that `crawl_urls demoEnv demoUrls 10` produces: three records
in input order, the middle one failed, counters 2 of 3. -/
def demoBatch : CrawlBatchResult :=
  { total_urls_attempted := 3
    successful_crawls := 2
    crawled_content :=
      [{ url := "http://a", title := some "Title",
         content := some (some "hello world"), word_count := some 2,
         success := true, error := none },
       { url := "http://b", title := none, content := none,
         word_count := none, success := false, error := some "boom" },
       { url := "http://c", title := some "Title",
         content := some (some "hello world"), word_count := some 2,
         success := true, error := none }]
    summary := "Successfully crawled 2 out of 3 URLs" }

/-- The failed middle record of `demoBatch`. -/
def demoFailedRecord : CrawlRecord :=
  { url := "http://b", title := none, content := none, word_count := none,
    success := false, error := some "boom" }

/-- The plain-text payload of the fallback-correctness test: `json.loads`
raises on it, so it carries no parsed value. -/
def fallbackPayload : Payload :=
  ⟨"see http://a.example and http://b.example.", none⟩

/-- The structured payload of the structured-extraction test, together with
the value `json.loads` produces for it. -/
def structuredPayload : Payload :=
  ⟨"\x7b\"results\": [\x7b\"url\": \"http://x\"\x7d, \x7b\"link\": \"http://y\"\x7d]\x7d",
   some (.obj [("results",
     .arr [.obj [("url", .str "http://x")], .obj [("link", .str "http://y")]])])⟩

/-- A payload parsing to a two-element JSON array of URL-bearing objects. -/
def arrayPayload : Payload :=
  ⟨"[\x7b\"url\": \"http://x\"\x7d, \x7b\"url\": \"http://y\"\x7d]",
   some (.arr [.obj [("url", .str "http://x")], .obj [("url", .str "http://y")]])⟩

/-! ## Helper lemmas -/

/-- On a hashable left operand, the set-membership equality test coincides
with equality of JSON values. -/
theorem atomEq_iff (a b : JSON) (ha : a.hashable = true) :
    a.atomEq b = true ↔ a = b := by
  cases a <;> cases b <;> simp_all [JSON.atomEq, JSON.hashable]

/-- Set membership of a hashable value, via the equality test. -/
theorem any_atomEq_iff (u : JSON) (seen : List JSON) (hu : u.hashable = true) :
    seen.any u.atomEq = true ↔ u ∈ seen := by
  simp only [List.any_eq_true]
  constructor
  · rintro ⟨x, hx, hax⟩
    rwa [(atomEq_iff u x hu).mp hax]
  · intro hm
    exact ⟨u, hm, (atomEq_iff u u hu).mpr rfl⟩

/-- Structural facts about a successful run of the dedup loop: every kept
value is hashable and outside the initial seen-set, the output has no
duplicates, it is a subsequence of the input, and its elements are ordered
by the position of their first occurrence in the input. -/
theorem dedupLoop_ok_spec (l : List JSON) : ∀ (seen r : List JSON),
    dedupLoop seen l = .ok r →
    (∀ x ∈ r, x ∉ seen ∧ x.hashable = true) ∧ r.Nodup ∧ r.Sublist l ∧
    r.Pairwise (fun a b => l.findIdx a.atomEq < l.findIdx b.atomEq) := by
  induction l with
  | nil =>
    intro seen r h
    simp only [dedupLoop] at h
    injection h with h
    subst h
    simp
  | cons u rest ih =>
    intro seen r h
    simp only [dedupLoop] at h
    by_cases hu : u.hashable = true
    · rw [if_pos hu] at h
      by_cases hseen : seen.any u.atomEq = true
      · rw [if_pos hseen] at h
        obtain ⟨hmem, hnd, hsub, hpw⟩ := ih seen r h
        have humem : u ∈ seen := (any_atomEq_iff u seen hu).mp hseen
        have hne : ∀ x ∈ r, x ≠ u := by
          intro x hx hxu
          exact (hmem x hx).1 (hxu ▸ humem)
        have hidx : ∀ x ∈ r,
            (u :: rest).findIdx x.atomEq = rest.findIdx x.atomEq + 1 := by
          intro x hx
          have hax : x.atomEq u = false := by
            by_cases hax : x.atomEq u = true
            · exact absurd ((atomEq_iff x u (hmem x hx).2).mp hax) (hne x hx)
            · simpa using hax
          simp [List.findIdx_cons, hax]
        refine ⟨hmem, hnd, hsub.cons u, ?_⟩
        refine List.Pairwise.imp_of_mem ?_ hpw
        intro a b ha hb hlt
        rw [hidx a ha, hidx b hb]
        omega
      · rw [if_neg hseen] at h
        cases hrec : dedupLoop (u :: seen) rest with
        | error e =>
          rw [hrec] at h
          simp [Except.map] at h
        | ok tl =>
          rw [hrec] at h
          simp only [Except.map] at h
          injection h with h
          subst h
          obtain ⟨hmem, hnd, hsub, hpw⟩ := ih (u :: seen) tl hrec
          have hune : u ∉ seen := fun hm =>
            hseen ((any_atomEq_iff u seen hu).mpr hm)
          have htlne : ∀ x ∈ tl, x ≠ u := by
            intro x hx hxu
            exact (hmem x hx).1 (hxu ▸ List.mem_cons_self u seen)
          have hidx : ∀ x ∈ tl,
              (u :: rest).findIdx x.atomEq = rest.findIdx x.atomEq + 1 := by
            intro x hx
            have hax : x.atomEq u = false := by
              by_cases hax : x.atomEq u = true
              · exact absurd ((atomEq_iff x u (hmem x hx).2).mp hax) (htlne x hx)
              · simpa using hax
            simp [List.findIdx_cons, hax]
          have huidx : (u :: rest).findIdx u.atomEq = 0 := by
            simp [List.findIdx_cons, (atomEq_iff u u hu).mpr rfl]
          refine ⟨?_, ?_, hsub.cons₂ u, ?_⟩
          · intro x hx
            rcases List.mem_cons.mp hx with rfl | hx
            · exact ⟨hune, hu⟩
            · exact ⟨fun hm => (hmem x hx).1 (List.mem_cons_of_mem u hm),
                (hmem x hx).2⟩
          · exact List.Pairwise.cons (fun x hx hxu => htlne x hx hxu.symm) hnd
          · rw [List.pairwise_cons]
            constructor
            · intro b hb
              rw [huidx, hidx b hb]
              omega
            · refine List.Pairwise.imp_of_mem ?_ hpw
              intro a b ha hb hlt
              rw [hidx a ha, hidx b hb]
              omega
    · rw [if_neg hu] at h
      cases h

/-- The record built for a URL carries that URL, whatever the fetch did. -/
theorem crawlStep_url (f : Nat → String → FetchOutcome) (i : Nat) (url : String) :
    (crawlStep f i url).url = url := by
  cases hres : f i url with
  | ok r =>
    by_cases hs : r.success <;> simp [crawlStep, hres, hs]
  | exn msg => simp [crawlStep, hres]

/-- The records of a crawl batch list exactly the truncated input URLs, in
order, whatever the fetch outcomes are. -/
theorem crawlBatch_map_url (f : Nat → String → FetchOutcome) (urls : List String)
    (m : Int) :
    (crawlBatch f urls m).crawled_content.map CrawlRecord.url = pySlice urls m := by
  show ((pySlice urls m).enum.map
      (fun iu => crawlStep f iu.1 iu.2)).map CrawlRecord.url = pySlice urls m
  rw [List.map_map]
  have hcomp : (CrawlRecord.url ∘ fun iu : Nat × String => crawlStep f iu.1 iu.2)
      = Prod.snd := funext fun iu => crawlStep_url f iu.1 iu.2
  rw [hcomp, List.enum_map_snd]

/-! ## Claim theorems -/

/-- C1: for every crawl run that does not hit a batch-level failure and has
`max_urls >= 0`, the returned batch satisfies `successful_crawls` equal to
the number of records with `success` true, and `total_urls_attempted` equal
to the number of records, which is `min(len(urls), max_urls)`. -/
theorem crawl_batch_accounting (env : CrawlEnv) (urls : List String) (m : Int)
    (b : CrawlBatchResult) (hm : 0 ≤ m)
    (hb : crawl_urls env urls m = .batch b) :
    b.successful_crawls = (b.crawled_content.filter (fun r => r.success)).length ∧
    b.total_urls_attempted = b.crawled_content.length ∧
    b.crawled_content.length = min urls.length m.toNat := by
  cases henv : env.initErr with
  | some e => simp [crawl_urls, henv] at hb
  | none =>
    simp only [crawl_urls, henv] at hb
    injection hb with hb
    subst hb
    refine ⟨rfl, ?_, ?_⟩
    · simp [crawlBatch]
    · simp [crawlBatch, pySlice, if_pos hm, List.length_take, Nat.min_comm]

/-- Witness for C1 at a three-URL batch whose middle fetch raises. -/
theorem crawl_batch_accounting_witness :
    (0 : Int) ≤ 10 ∧
    (demoBatch.successful_crawls
        = (demoBatch.crawled_content.filter (fun r => r.success)).length ∧
      demoBatch.total_urls_attempted = demoBatch.crawled_content.length ∧
      demoBatch.crawled_content.length = min demoUrls.length (10 : Int).toNat) :=
  ⟨by decide, crawl_batch_accounting demoEnv demoUrls 10 demoBatch (by decide) rfl⟩

/-- C2: every attempted URL yields exactly one record and the records are in
input order, for every fetch oracle; in particular a failure or exception
on one URL never suppresses the records of the others. -/
theorem crawl_record_order (env : CrawlEnv) (urls : List String) (m : Int)
    (b : CrawlBatchResult) (hb : crawl_urls env urls m = .batch b) :
    b.crawled_content.map CrawlRecord.url = pySlice urls m := by
  cases henv : env.initErr with
  | some e => simp [crawl_urls, henv] at hb
  | none =>
    simp only [crawl_urls, henv] at hb
    injection hb with hb
    subst hb
    exact crawlBatch_map_url env.fetch urls m

/-- Witness for C2: URL 2 of 3 raises, yet all three URLs are recorded in
order. -/
theorem crawl_record_order_witness :
    demoBatch.crawled_content.map CrawlRecord.url = pySlice demoUrls 10 :=
  crawl_record_order demoEnv demoUrls 10 demoBatch rfl

/-- C4: every record of a returned batch satisfies the dichotomy: exactly
one of (content key present and success true) or (error key present and
success false) holds. -/
theorem crawl_record_dichotomy (env : CrawlEnv) (urls : List String) (m : Int)
    (b : CrawlBatchResult) (r : CrawlRecord)
    (hb : crawl_urls env urls m = .batch b) (hr : r ∈ b.crawled_content) :
    (r.content.isSome = true ∧ r.success = true
        ∧ ¬(r.error.isSome = true ∧ r.success = false)) ∨
    (r.error.isSome = true ∧ r.success = false
        ∧ ¬(r.content.isSome = true ∧ r.success = true)) := by
  cases henv : env.initErr with
  | some e => simp [crawl_urls, henv] at hb
  | none =>
    simp only [crawl_urls, henv] at hb
    injection hb with hb
    subst hb
    simp only [crawlBatch, List.mem_map] at hr
    obtain ⟨iu, -, hiu⟩ := hr
    subst hiu
    cases hres : env.fetch iu.1 iu.2 with
    | ok fr =>
      by_cases hs : fr.success
      · left; simp [crawlStep, hres, hs]
      · right; simp [crawlStep, hres, hs]
    | exn msg => right; simp [crawlStep, hres]

/-- Witness for C4 at the failed record of the demo batch. -/
theorem crawl_record_dichotomy_witness :
    (demoFailedRecord.content.isSome = true ∧ demoFailedRecord.success = true
        ∧ ¬(demoFailedRecord.error.isSome = true ∧ demoFailedRecord.success = false)) ∨
    (demoFailedRecord.error.isSome = true ∧ demoFailedRecord.success = false
        ∧ ¬(demoFailedRecord.content.isSome = true ∧ demoFailedRecord.success = true)) :=
  crawl_record_dichotomy demoEnv demoUrls 10 demoBatch demoFailedRecord rfl
    (by decide)

/-- C8: the batch-level error dict is returned exactly when the crawler
session fails to initialize; whenever the session initializes, a batch
result (top-level success true) is returned, no matter how many of the
individual URLs fail. -/
theorem crawl_batch_error_iff (env : CrawlEnv) (urls : List String) (m : Int) :
    (∀ e, crawl_urls env urls m = .batchError e ↔ env.initErr = some e) ∧
    (env.initErr = none → ∃ b, crawl_urls env urls m = .batch b) := by
  cases henv : env.initErr with
  | some e0 =>
    refine ⟨fun e => ?_, fun h => by simp [henv] at h⟩
    simp [crawl_urls, henv]
  | none =>
    refine ⟨fun e => ?_,
      fun _ => ⟨crawlBatch env.fetch urls m, by simp [crawl_urls, henv]⟩⟩
    simp [crawl_urls, henv]

/-- Witness for C8: a batch in which every fetch raises still returns a
batch result rather than the error dict. -/
theorem crawl_batch_error_iff_witness :
    ∃ b, crawl_urls ⟨none, fun _ _ => .exn "down"⟩ ["http://a", "http://b"] 10
      = .batch b :=
  (crawl_batch_error_iff ⟨none, fun _ _ => .exn "down"⟩ ["http://a", "http://b"] 10).2
    rfl

/-- C3: for every payload and every `max_urls >= 0`, the extracted list has
length at most `max_urls`, contains no duplicates, is a subsequence of the
collected candidates, and lists its entries in order of their first
occurrence among the candidates. -/
theorem extract_urlList_invariant (p : Payload) (m : Int) (hm : 0 ≤ m) :
    (extract_urls_from_search p m).length ≤ m.toNat ∧
    (extract_urls_from_search p m).Nodup ∧
    (extract_urls_from_search p m).Sublist (collectUrls p m) ∧
    (extract_urls_from_search p m).Pairwise
      (fun a b => (collectUrls p m).findIdx a.atomEq
        < (collectUrls p m).findIdx b.atomEq) := by
  cases hded : dedupLoop [] (collectUrls p m) with
  | error e =>
    have hx : extract_urls_from_search p m = [] := by
      simp [extract_urls_from_search, extractBody, Except.map, hded]
    rw [hx]
    simp
  | ok uniq =>
    have hx : extract_urls_from_search p m = pySlice uniq m := by
      simp [extract_urls_from_search, extractBody, Except.map, hded]
    obtain ⟨-, hnd, hsub, hpw⟩ := dedupLoop_ok_spec (collectUrls p m) [] uniq hded
    have hslice : pySlice uniq m = uniq.take m.toNat := by
      rw [pySlice, if_pos hm]
    have hsub2 : (pySlice uniq m).Sublist uniq := by
      rw [hslice]
      exact List.take_sublist _ _
    rw [hx]
    refine ⟨?_, List.Nodup.sublist hsub2 hnd, hsub2.trans hsub,
      List.Pairwise.sublist hsub2 hpw⟩
    rw [hslice, List.length_take]
    exact Nat.min_le_left _ _

/-- Witness for C3 at the plain-text two-URL payload with bound 10. -/
theorem extract_urlList_invariant_witness :
    (0 : Int) ≤ 10 ∧
    ((extract_urls_from_search fallbackPayload 10).length ≤ (10 : Int).toNat ∧
      (extract_urls_from_search fallbackPayload 10).Nodup ∧
      (extract_urls_from_search fallbackPayload 10).Sublist
        (collectUrls fallbackPayload 10) ∧
      (extract_urls_from_search fallbackPayload 10).Pairwise
        (fun a b => (collectUrls fallbackPayload 10).findIdx a.atomEq
          < (collectUrls fallbackPayload 10).findIdx b.atomEq)) :=
  ⟨by decide, extract_urlList_invariant fallbackPayload 10 (by decide)⟩

/-- C5: for every payload and bound, `extract_urls_from_search` returns a
plain list: when the body finishes, its collected list is returned, and
when the body raises (the only uncaught exception of the model being the
`TypeError` of hashing an unhashable collected value), the outermost
handler degrades the result to the empty list. -/
theorem extract_no_exception (p : Payload) (m : Int) :
    (∃ l, extractBody p m = .ok l ∧ extract_urls_from_search p m = l) ∨
    (∃ e, extractBody p m = .error e ∧ extract_urls_from_search p m = []) := by
  cases hb : extractBody p m with
  | ok l =>
    left
    exact ⟨l, rfl, by simp [extract_urls_from_search, hb]⟩
  | error e =>
    right
    exact ⟨e, rfl, by simp [extract_urls_from_search, hb]⟩

/-- C6: on the plain-text payload the fallback scanner returns the two
URLs, with the trailing period stripped from the second one. -/
theorem extract_fallback_example :
    extract_urls_from_search fallbackPayload 10
      = [.str "http://a.example", .str "http://b.example"] := rfl

/-- C7: on the structured payload the `results` entries are read through
the `url`/`link`/`href` aliases, in order. -/
theorem extract_structured_example :
    extract_urls_from_search structuredPayload 5
      = [.str "http://x", .str "http://y"] := rfl

/-- C10: with a negative `max_urls`, slicing is not a cap: `crawl_urls`
attempts exactly `max(len(urls) + max_urls, 0)` URLs, dropping the last
`|max_urls|`, and `extract_urls_from_search` drops the last `|max_urls|`
entries of its deduplicated candidate list. -/
theorem slicing_negative_max (env : CrawlEnv) (urls : List String) (p : Payload)
    (m : Int) (uniq : List JSON) (hm : m < 0) (henv : env.initErr = none)
    (hded : dedupLoop [] (collectUrls p m) = .ok uniq) :
    (∃ b, crawl_urls env urls m = .batch b ∧
      b.total_urls_attempted = ((urls.length : Int) + m).toNat ∧
      b.crawled_content.map CrawlRecord.url
        = urls.take ((urls.length : Int) + m).toNat) ∧
    extract_urls_from_search p m = uniq.take (uniq.length - (-m).toNat) := by
  have hslice : ∀ (α : Type) (l : List α),
      pySlice l m = l.take (((l.length : Int) + m).toNat) := by
    intro α l
    rw [pySlice, if_neg (by omega)]
    congr 1
    omega
  constructor
  · refine ⟨crawlBatch env.fetch urls m, by simp [crawl_urls, henv], ?_, ?_⟩
    · show (pySlice urls m).length = _
      rw [hslice, List.length_take]
      omega
    · rw [crawlBatch_map_url, hslice]
  · have hx : extract_urls_from_search p m = pySlice uniq m := by
      simp [extract_urls_from_search, extractBody, Except.map, hded]
    rw [hx, pySlice, if_neg (by omega)]

/-- Witness for C10: three URLs with `max_urls = -1` attempt only the first
two, and a two-candidate payload with `max_urls = -1` extracts nothing
(the single collected candidate is dropped by the final slice). -/
theorem slicing_negative_max_witness :
    (-1 : Int) < 0 ∧
    ((∃ b, crawl_urls demoEnv demoUrls (-1) = .batch b ∧
        b.total_urls_attempted = ((demoUrls.length : Int) + (-1)).toNat ∧
        b.crawled_content.map CrawlRecord.url
          = demoUrls.take ((demoUrls.length : Int) + (-1)).toNat) ∧
      extract_urls_from_search arrayPayload (-1)
        = [JSON.str "http://x"].take ([JSON.str "http://x"].length - (-(-1 : Int)).toNat)) :=
  ⟨by decide,
    slicing_negative_max demoEnv demoUrls arrayPayload (-1) [JSON.str "http://x"]
      (by decide) rfl rfl⟩

/-- C9 counterexample: with a research stage that succeeds and an
elaboration stage that raises, the handler surfaces an error and delivers
no enhanced report and no download; the run fails instead of falling back
to delivering the initial report as the final artifact. -/
theorem elaboration_no_fallback_counterexample :
    startResearchHandler ⟨fun _ => .ok "INITIAL REPORT", fun _ => .exn "boom"⟩
        "topic"
      = [.showIntermediate "INITIAL REPORT",
         .showError ("An error occurred: " ++ "boom")] ∧
    ((startResearchHandler ⟨fun _ => .ok "INITIAL REPORT", fun _ => .exn "boom"⟩
        "topic").any (fun e => match e with
          | .showEnhanced _ => true
          | .offerDownload _ _ => true
          | _ => false)) = false :=
  ⟨rfl, rfl⟩

/-- C9 amended: when the elaboration stage raises after a successful
research stage, the exception propagates to the Start-Research handler,
which surfaces an error message and delivers no final artifact; the
initial report remains visible only as the intermediate artifact already
displayed before elaboration began. -/
theorem elaboration_failure_surfaces_error (env : ResearchEnv)
    (topic initial e : String) (hres : env.runResearch topic = .ok initial)
    (hfail : env.runElaboration (elaborationInput topic initial) = .exn e) :
    startResearchHandler env topic
      = [.showIntermediate initial, .showError ("An error occurred: " ++ e)] := by
  simp [startResearchHandler, run_research_process, hres, hfail]

/-- Witness for the amended C9 at a concrete environment. -/
theorem elaboration_failure_surfaces_error_witness :
    startResearchHandler ⟨fun _ => .ok "R", fun _ => .exn "E"⟩ "t"
      = [.showIntermediate "R", .showError ("An error occurred: " ++ "E")] :=
  elaboration_failure_surfaces_error ⟨fun _ => .ok "R", fun _ => .exn "E"⟩
    "t" "R" "E" rfl rfl
